import Mathlib

/-!
Verification development for the notebook-operators charms
(jupyter-controller, jupyter-ui).

The definitions below are a shallow embedding of the reconciliation logic in
`charms/jupyter-controller/src/charm.py`, `charms/jupyter-ui/src/charm.py`
and `charms/jupyter-ui/src/config_validators.py`.

Modelling conventions:
  * Each event handler is a function from an environment (the outcomes the
    cluster / container / relations would produce during the pass) and an
    incoming pass state to a final pass state together with an optional
    uncaught exception.  `none` in the second component means the handler
    returned normally; `some e` means exception `e` escaped the handler.
  * The pass state records the unit status last set and the ordered trace of
    cluster mutation calls (apply / delete) issued during the pass.
  * Exceptions are a tagged union mirroring the Python classes involved:
    `ErrorWithStatus` (from charmed_kubeflow_chisme, carrying a resolved
    status), `GenericCharmRuntimeError` (a plain Exception subclass in
    chisme, NOT an ErrorWithStatus), lightkube's `ApiError` (carrying the
    HTTP status code), the jupyter-ui local `CheckFailed`, and a catch-all
    for other runtime exceptions.
-/

/-- The four externally visible charm states (ops ActiveStatus / WaitingStatus /
BlockedStatus / MaintenanceStatus), with their human-readable message. -/
inductive Status where
  | active
  | waiting (msg : String)
  | blocked (msg : String)
  | maintenance (msg : String)
deriving DecidableEq, Repr

/-- Cluster mutation calls the jupyter-controller charm can issue during a
pass: server-side applies of the plain K8S resource group and the CRD
resource group (with the force flag actually passed to `apply`), and the
`delete_many` calls for the two groups. -/
inductive CtrlOp where
  | applyK8s (force : Bool)
  | applyCrd (force : Bool)
  | deleteK8s
  | deleteCrd
deriving DecidableEq, Repr

/-- Exceptions that can travel through the jupyter-controller handlers.
`errorWithStatus` carries the status the `status_type(msg)` constructor
produces; `genericCharmRuntimeError` models chisme's
GenericCharmRuntimeError, which subclasses Exception directly and is not an
ErrorWithStatus; `apiError` models an uncaught lightkube ApiError with its
HTTP status code. -/
inductive CtrlExc where
  | errorWithStatus (st : Status)
  | genericCharmRuntimeError (msg : String)
  | apiError (code : Nat)
deriving DecidableEq, Repr

/-- Environment of one jupyter-controller reconciliation pass: what each
external call would report if made.  An `Option Nat` field is `none` when the
call succeeds and `some code` when it raises ApiError with that HTTP status
code.  `updateLayerResult` is the chisme `update_layer` outcome (it raises
ErrorWithStatus on failure; the gateway-metadata errors raised while building
the layer's environment surface through here as well).  `checkGetError` is
true when `container.get_check` raises ModelError, and `checkUp` is whether
the pebble check reports `CheckStatus.UP`. -/
structure CtrlEnv where
  isLeader : Bool
  canConnect : Bool
  k8sApply : Option Nat
  k8sApplyForced : Option Nat
  crdApply : Option Nat
  crdApplyForced : Option Nat
  updateLayerResult : Option Status
  checkGetError : Bool
  checkUp : Bool
  k8sDelete : Option Nat
  crdDelete : Option Nat
deriving DecidableEq, Repr

/-- State threaded through one pass: the unit status last assigned and the
trace of cluster mutation calls issued so far. -/
structure PassState where
  status : Status
  trace : List CtrlOp
deriving DecidableEq, Repr

/-- Result of a controller step: final state plus the exception that escaped
it, if any. -/
abbrev CtrlResult := PassState × Option CtrlExc

/-- Sequencing of two steps: the second runs only when the first did not
raise (Python statement sequencing under exceptions). -/
def andThen : CtrlResult → (PassState → CtrlResult) → CtrlResult
  | (s, some e), _ => (s, some e)
  | (s, none), f => f s

/-- One `try: handler.apply() except ApiError: ...` block of
`JupyterController._apply_k8s_resources`.  The apply call is recorded in the
trace (the cluster call is made even when it then raises).  On a 409 with
`force_conflicts` set, the status is set to the force message and the apply
is retried with `force=True` (an ApiError from the retry is uncaught);
otherwise the ApiError is wrapped in GenericCharmRuntimeError. -/
def tryApplyGroup (applyRes forcedRes : Option Nat) (force : Bool)
    (op : Bool → CtrlOp) (forceMsg failMsg : String) (s : PassState) : CtrlResult :=
  let s1 : PassState := { s with trace := s.trace ++ [op false] }
  match applyRes with
  | none => (s1, none)
  | some code =>
    if code = 409 ∧ force = true then
      let s2 : PassState := { status := Status.maintenance forceMsg,
                              trace := s1.trace ++ [op true] }
      match forcedRes with
      | none => (s2, none)
      | some code2 => (s2, some (CtrlExc.apiError code2))
    else (s1, some (CtrlExc.genericCharmRuntimeError failMsg))

/-- `JupyterController._apply_k8s_resources(force_conflicts)`: sets the
"Creating K8S resources" status, applies the plain K8S group then the CRD
group with per-group conflict handling, then sets "K8S resources created". -/
def applyK8sResources (env : CtrlEnv) (force : Bool) (s : PassState) : CtrlResult :=
  let s0 : PassState := { s with status := Status.maintenance "Creating K8S resources" }
  andThen
    (tryApplyGroup env.k8sApply env.k8sApplyForced force CtrlOp.applyK8s
      "Force applying K8S resources" "K8S resources creation failed" s0)
    (fun s1 =>
      andThen
        (tryApplyGroup env.crdApply env.crdApplyForced force CtrlOp.applyCrd
          "Force applying CRD resources" "CRD resources creation failed" s1)
        (fun s2 => ({ s2 with status := Status.maintenance "K8S resources created" }, none)))

/-- `JupyterController._check_container_connection`: raises
ErrorWithStatus("Pod startup is not complete", MaintenanceStatus) when the
container is unreachable. -/
def checkContainerConnection (env : CtrlEnv) (s : PassState) : CtrlResult :=
  if env.canConnect then (s, none)
  else (s, some (CtrlExc.errorWithStatus (Status.maintenance "Pod startup is not complete")))

/-- `JupyterController._check_leader`: raises
ErrorWithStatus("Waiting for leadership", WaitingStatus) on a non-leader. -/
def checkLeader (env : CtrlEnv) (s : PassState) : CtrlResult :=
  if env.isLeader then (s, none)
  else (s, some (CtrlExc.errorWithStatus (Status.waiting "Waiting for leadership")))

/-- The `update_layer(...)` call of `JupyterController._on_event` (chisme):
succeeds or raises ErrorWithStatus carrying the status recorded in the
environment.  Failures raised while computing the layer's environment
(`_get_gateway_info`, also ErrorWithStatus) surface through the same slot. -/
def updateLayerStep (env : CtrlEnv) (s : PassState) : CtrlResult :=
  match env.updateLayerResult with
  | some st => (s, some (CtrlExc.errorWithStatus st))
  | none => (s, none)

/-- Body of the `try:` block of `JupyterController._on_event`: container
check, leader check, resource apply, istio flag update (pure, no observable
effect here), pebble layer update. -/
def onEventBody (env : CtrlEnv) (force : Bool) (s : PassState) : CtrlResult :=
  andThen (checkContainerConnection env s) (fun s1 =>
    andThen (checkLeader env s1) (fun s2 =>
      andThen (applyK8sResources env force s2) (fun s3 =>
        updateLayerStep env s3)))

/-- `JupyterController._on_event(event, force_conflicts)`: runs the body,
catches exactly ErrorWithStatus (setting the unit status to its status and
returning), lets every other exception escape, and sets ActiveStatus when
the body completes. -/
def onEvent (env : CtrlEnv) (force : Bool) (s : PassState) : CtrlResult :=
  match onEventBody env force s with
  | (s1, some (CtrlExc.errorWithStatus st)) => ({ s1 with status := st }, none)
  | (s1, some e) => (s1, some e)
  | (s1, none) => ({ s1 with status := Status.active }, none)

/-- `JupyterController._on_install`: calls `_apply_k8s_resources()` directly,
with no leadership or container gate and no exception handler. -/
def onInstall (env : CtrlEnv) (s : PassState) : CtrlResult :=
  applyK8sResources env false s

/-- `JupyterController._on_upgrade`: `_on_event` with force_conflicts=True. -/
def onUpgrade (env : CtrlEnv) (s : PassState) : CtrlResult :=
  onEvent env true s

/-- Residual error of one `delete_many` call in
`JupyterController._on_remove`: a 404 ApiError is ignored (resource already
absent), any other ApiError is recorded. -/
def deleteGroupError (res : Option Nat) : Option Nat :=
  match res with
  | some code => if code = 404 then none else some code
  | none => none

/-- `JupyterController._on_remove`: sets the removal status, attempts
`delete_many` for both resource groups (both calls are always made), keeps
the last non-404 error, and re-raises it after both deletions were
attempted; otherwise sets "K8S resources removed". -/
def onRemove (env : CtrlEnv) (s : PassState) : CtrlResult :=
  let s1 : PassState := { status := Status.maintenance "Removing K8S resources",
                          trace := s.trace ++ [CtrlOp.deleteK8s, CtrlOp.deleteCrd] }
  let residual : Option Nat :=
    match deleteGroupError env.crdDelete with
    | some code => some code
    | none => deleteGroupError env.k8sDelete
  match residual with
  | some code => (s1, some (CtrlExc.apiError code))
  | none => ({ s1 with status := Status.maintenance "K8S resources removed" }, none)

/-- `JupyterController._check_status`: leadership check, then the pebble
health check: a ModelError from `get_check` is wrapped in
GenericCharmRuntimeError, a non-UP check raises
ErrorWithStatus("Workload failed health check", MaintenanceStatus), and an
UP check sets ActiveStatus. -/
def checkStatus (env : CtrlEnv) (s : PassState) : CtrlResult :=
  if env.isLeader then
    if env.checkGetError then
      (s, some (CtrlExc.genericCharmRuntimeError
        "Failed to run health check on workload container"))
    else if env.checkUp then ({ s with status := Status.active }, none)
    else (s, some (CtrlExc.errorWithStatus (Status.maintenance "Workload failed health check")))
  else (s, some (CtrlExc.errorWithStatus (Status.waiting "Waiting for leadership")))

/-- `JupyterController._on_update_status`: runs the full `_on_event` pass
(exceptions escaping it keep escaping), then runs `_check_status` inside a
`try/except ErrorWithStatus` that only sets the unit status. -/
def onUpdateStatus (env : CtrlEnv) (s : PassState) : CtrlResult :=
  match onEvent env false s with
  | (s1, some e) => (s1, some e)
  | (s1, none) =>
    match checkStatus env s1 with
    | (s2, some (CtrlExc.errorWithStatus st)) => ({ s2 with status := st }, none)
    | (s2, some e) => (s2, some e)
    | (s2, none) => (s2, none)

/-!
Shallow embedding of `charms/jupyter-ui/src/charm.py` (class JupyterUI).
-/

/-- Cluster and container side effects issued by the jupyter-ui charm during
a pass: the server-side apply of its K8S resource group, the pebble replan,
the push of the spawner UI config file, the ingress relation data send, and
the `delete_many` on removal. -/
inductive UiOp where
  | applyK8s
  | replan
  | pushSpawnerConfig
  | sendIngressData
  | deleteK8s
deriving DecidableEq, Repr

/-- Outcome of `get_interfaces` in `JupyterUI._get_interfaces`. -/
inductive IfaceResult where
  | ok
  | noVersionsListed
  | noCompatibleVersions
deriving DecidableEq, Repr

/-- Exceptions travelling through the jupyter-ui handlers.  `checkFailed` is
the charm's local CheckFailed class (the only one `main` catches);
`errorWithStatus` is chisme's ErrorWithStatus (raised by
`_deploy_k8s_resources` and `_update_layer`, and NOT caught by `main`);
`apiError` is an uncaught lightkube ApiError; `runtimeError` stands for any
other uncaught exception (e.g. from the spawner config rendering or the file
push). -/
inductive UiExc where
  | checkFailed (st : Status)
  | errorWithStatus (st : Status)
  | apiError (code : Nat)
  | runtimeError (msg : String)
deriving DecidableEq, Repr

/-- Environment of one jupyter-ui pass.  `k8sApply` / `k8sDelete` are `none`
on success or `some code` for an ApiError with that HTTP status code;
`planChanged` is whether the current pebble plan differs from the new layer;
`replanError` is whether `container.replan()` raises ChangeError;
`spawnerError` is whether `_update_spawner_ui_config` raises;
`sidecarRelated` / `ambientRelated` are the presence of the "ingress" and
"istio-ingress-route" relations; `iface` is the `get_interfaces` outcome. -/
structure UiEnv where
  isLeader : Bool
  canConnect : Bool
  k8sApply : Option Nat
  planChanged : Bool
  replanError : Bool
  spawnerError : Bool
  sidecarRelated : Bool
  ambientRelated : Bool
  iface : IfaceResult
  k8sDelete : Option Nat
deriving DecidableEq, Repr

/-- State threaded through one jupyter-ui pass. -/
structure UiState where
  status : Status
  trace : List UiOp
deriving DecidableEq, Repr

/-- Result of a jupyter-ui step. -/
abbrev UiResult := UiState × Option UiExc

/-- Sequencing for jupyter-ui steps, as `andThen` for the controller. -/
def uiAndThen : UiResult → (UiState → UiResult) → UiResult
  | (s, some e), _ => (s, some e)
  | (s, none), f => f s

/-- `JupyterUI._check_leader`: raises CheckFailed("Waiting for leadership",
WaitingStatus) on a non-leader. -/
def uiCheckLeader (env : UiEnv) (s : UiState) : UiResult :=
  if env.isLeader then (s, none)
  else (s, some (UiExc.checkFailed (Status.waiting "Waiting for leadership")))

/-- `JupyterUI._deploy_k8s_resources`: sets "Creating K8S resources", issues
the apply (recorded in the trace), and on ApiError raises chisme's
ErrorWithStatus("K8S resources creation failed", BlockedStatus) — which is
not a CheckFailed; on success sets "K8S resources created". -/
def uiDeployK8sResources (env : UiEnv) (s : UiState) : UiResult :=
  let s1 : UiState := { status := Status.maintenance "Creating K8S resources",
                        trace := s.trace ++ [UiOp.applyK8s] }
  match env.k8sApply with
  | some _ => (s1, some (UiExc.errorWithStatus (Status.blocked "K8S resources creation failed")))
  | none => ({ s1 with status := Status.maintenance "K8S resources created" }, none)

/-- `JupyterUI._update_layer`: when the plan changed, sets "Applying new
pebble layer" and replans; a ChangeError becomes
ErrorWithStatus("Failed to replan", BlockedStatus). -/
def uiUpdateLayer (env : UiEnv) (s : UiState) : UiResult :=
  if env.planChanged then
    let s1 : UiState := { status := Status.maintenance "Applying new pebble layer",
                          trace := s.trace ++ [UiOp.replan] }
    if env.replanError then (s1, some (UiExc.errorWithStatus (Status.blocked "Failed to replan")))
    else (s1, none)
  else (s, none)

/-- `JupyterUI._update_spawner_ui_config`: config parsing errors are handled
internally; an uncaught failure (template rendering or the container push)
escapes as a plain runtime exception, otherwise the rendered file is pushed
to the container. -/
def uiUpdateSpawnerConfig (env : UiEnv) (s : UiState) : UiResult :=
  if env.spawnerError then (s, some (UiExc.runtimeError "spawner ui config update failed"))
  else ({ s with trace := s.trace ++ [UiOp.pushSpawnerConfig] }, none)

/-- Message of the CheckFailed raised by `JupyterUI._check_istio_relations`
(quotation marks around the relation names omitted). -/
def uiIstioBlockedMsg : String :=
  "Cannot have both istio-ingress-route and ingress relations at the same time."

/-- `JupyterUI._check_istio_relations`: raises CheckFailed(..., BlockedStatus)
exactly when both the ambient ("istio-ingress-route") and the sidecar
("ingress") relations are present. -/
def uiCheckIstioRelations (env : UiEnv) (s : UiState) : UiResult :=
  if env.ambientRelated && env.sidecarRelated then
    (s, some (UiExc.checkFailed (Status.blocked uiIstioBlockedMsg)))
  else (s, none)

/-- `JupyterUI._get_interfaces`: NoVersionsListed becomes
CheckFailed(..., WaitingStatus), NoCompatibleVersions becomes
CheckFailed(..., BlockedStatus). -/
def uiGetInterfaces (env : UiEnv) (s : UiState) : UiResult :=
  match env.iface with
  | IfaceResult.noVersionsListed =>
      (s, some (UiExc.checkFailed (Status.waiting "no versions listed")))
  | IfaceResult.noCompatibleVersions =>
      (s, some (UiExc.checkFailed (Status.blocked "no compatible versions")))
  | IfaceResult.ok => (s, none)

/-- `JupyterUI._configure_mesh`: sends the ingress relation data when the
sidecar ingress relation interface is present. -/
def uiConfigureMesh (env : UiEnv) (s : UiState) : UiResult :=
  if env.sidecarRelated then ({ s with trace := s.trace ++ [UiOp.sendIngressData] }, none)
  else (s, none)

/-- Body of the `try:` block of `JupyterUI.main`: leader check, resource
deploy, then — only if `_is_container_ready()` — layer update, spawner
config update, istio relation check, interface fetch and mesh configuration.
`_is_container_ready` returning False sets MaintenanceStatus("Waiting for
pod startup to complete") and skips the block without raising. -/
def uiMainBody (env : UiEnv) (s : UiState) : UiResult :=
  uiAndThen (uiCheckLeader env s) (fun s1 =>
    uiAndThen (uiDeployK8sResources env s1) (fun s2 =>
      if env.canConnect then
        uiAndThen (uiUpdateLayer env s2) (fun s3 =>
          uiAndThen (uiUpdateSpawnerConfig env s3) (fun s4 =>
            uiAndThen (uiCheckIstioRelations env s4) (fun s5 =>
              uiAndThen (uiGetInterfaces env s5) (fun s6 =>
                uiConfigureMesh env s6))))
      else ({ s2 with status := Status.maintenance "Waiting for pod startup to complete" }, none)))

/-- `JupyterUI.main`: runs the body, catches exactly CheckFailed (setting the
unit status to its status), lets ErrorWithStatus / ApiError / other
exceptions escape, and sets ActiveStatus when the body completes without a
CheckFailed — including when the container was not ready and the inner block
was skipped. -/
def uiMain (env : UiEnv) (s : UiState) : UiResult :=
  match uiMainBody env s with
  | (s1, some (UiExc.checkFailed st)) => ({ s1 with status := st }, none)
  | (s1, some e) => (s1, some e)
  | (s1, none) => ({ s1 with status := Status.active }, none)

/-- `JupyterUI._on_install`: `_deploy_k8s_resources` inside a
`try/except CheckFailed` — but the deploy raises ErrorWithStatus, never
CheckFailed, so its failures escape; there is no leadership gate. -/
def uiOnInstall (env : UiEnv) (s : UiState) : UiResult :=
  match uiDeployK8sResources env s with
  | (s1, some (UiExc.checkFailed st)) => ({ s1 with status := st }, none)
  | r => r

/-- `JupyterUI._on_remove`: sets the removal status, calls `delete_many`
once, and re-raises ANY ApiError (including a 404) after logging it; on
success sets "K8S resources removed". -/
def uiOnRemove (env : UiEnv) (s : UiState) : UiResult :=
  let s1 : UiState := { status := Status.maintenance "Removing K8S resources",
                        trace := s.trace ++ [UiOp.deleteK8s] }
  match env.k8sDelete with
  | some code => (s1, some (UiExc.apiError code))
  | none => ({ s1 with status := Status.maintenance "K8S resources removed" }, none)

/-!
Resource handler construction and the field-manager identity
(`JupyterController.k8s_resource_handler` / `crd_resource_handler`,
`JupyterUI.k8s_resource_handler`).
-/

/-- The arguments a charm passes when constructing a chisme
KubernetesResourceHandler that matter here: the field-manager identity and
the template files. -/
structure KubernetesResourceHandler where
  field_manager : String
  template_files : List String
deriving DecidableEq, Repr

/-- `self._lightkube_field_manager = "lightkube"`, assigned once in both
charms' `__init__` and never reassigned. -/
def lightkubeFieldManager : String := "lightkube"

/-- `K8S_RESOURCE_FILES` of jupyter-controller. -/
def ctrlK8sTemplateFiles : List String := ["src/templates/auth_manifests.yaml.j2"]

/-- `CRD_RESOURCE_FILES` of jupyter-controller. -/
def ctrlCrdTemplateFiles : List String := ["src/templates/crds.yaml.j2"]

/-- `K8S_RESOURCE_FILES` of jupyter-ui. -/
def uiK8sTemplateFiles : List String := ["src/templates/auth_manifests.yaml.j2"]

/-- The handler the jupyter-controller `k8s_resource_handler` property
constructs on first use. -/
def mkCtrlK8sHandler : KubernetesResourceHandler :=
  { field_manager := lightkubeFieldManager, template_files := ctrlK8sTemplateFiles }

/-- The handler the jupyter-controller `crd_resource_handler` property
constructs on first use. -/
def mkCtrlCrdHandler : KubernetesResourceHandler :=
  { field_manager := lightkubeFieldManager, template_files := ctrlCrdTemplateFiles }

/-- The handler the jupyter-ui `k8s_resource_handler` property constructs on
first use. -/
def mkUiK8sHandler : KubernetesResourceHandler :=
  { field_manager := lightkubeFieldManager, template_files := uiK8sTemplateFiles }

/-- One evaluation of a lazily-cached handler property: if the cached slot is
empty the handler is constructed and cached, otherwise the cached handler is
returned unchanged. -/
def handlerGet (mk : KubernetesResourceHandler) :
    Option KubernetesResourceHandler →
      KubernetesResourceHandler × Option KubernetesResourceHandler
  | some h => (h, some h)
  | none => (mk, some mk)

/-- The handler returned by the property on the (n+1)-th reconciliation pass
of one charm instance, threading the cache through the passes (the cache
starts empty). -/
def handlerAcrossPasses (mk : KubernetesResourceHandler) :
    Nat → KubernetesResourceHandler × Option KubernetesResourceHandler
  | 0 => handlerGet mk none
  | n + 1 => handlerGet mk (handlerAcrossPasses mk n).2

/-!
Shallow embedding of `charms/jupyter-ui/src/config_validators.py`.
-/

/-- Exceptions of the config-validation helpers: Python's built-in ValueError
(raised by `int(...)` on an unparseable string), the module's
ConfigValidationError, and the built-in KeyError (raised by
`option[option_index_key]` when the key is absent). -/
inductive PyExc where
  | valueError
  | configValidationError (msg : String)
  | keyError
deriving DecidableEq, Repr

/-- Whitespace stripped by Python's `int(str)` before parsing. -/
def isPySpace (c : Char) : Bool :=
  c = ' ' || c = '\t' || c = '\n' || c = '\r'

/-- Strip leading and trailing whitespace from a character list. -/
def stripChars (l : List Char) : List Char :=
  ((l.dropWhile isPySpace).reverse.dropWhile isPySpace).reverse

/-- Value of a nonempty all-digit character list, `none` otherwise. -/
def digitsVal (l : List Char) : Option Nat :=
  if l = [] then none
  else if l.all Char.isDigit then
    some (l.foldl (fun acc c => acc * 10 + (c.toNat - 48)) 0)
  else none

/-- Python's `int(str)` conversion: surrounding whitespace is stripped, an
optional sign is followed by a nonempty digit string; anything else raises
ValueError, modelled as `none`.  (Digit-group underscores accepted by Python
are not modelled; the development only relies on the parseable/unparseable
distinction.) -/
def pyIntOfString (s : String) : Option Int :=
  match stripChars s.toList with
  | '-' :: rest => (digitsVal rest).map (fun n => -(n : Int))
  | '+' :: rest => (digitsVal rest).map (fun n => (n : Int))
  | l => (digitsVal l).map (fun n => (n : Int))

/-- `VALID_GPU_NUMS = [0, 1, 2, 4, 8]`. -/
def VALID_GPU_NUMS : List Int := [0, 1, 2, 4, 8]

/-- Body of the `try:` block inside `parse_gpu_num`, for an already-converted
integer: raises ConfigValidationError when the value is not in
VALID_GPU_NUMS, otherwise returns `str(num_gpu)`.  (No statement in this
block raises ValueError.) -/
def gpuGuardedBody (n : Int) : Except PyExc String :=
  if n ∈ VALID_GPU_NUMS then Except.ok (toString n)
  else
    Except.error (PyExc.configValidationError
      ("Invalid value for gpu-number-default: " ++ toString n ++
        ". Must be one of [0, 1, 2, 4, 8]."))

/-- `parse_gpu_num(num_gpu)`: the `int(num_gpu)` conversion happens FIRST,
outside the try block, so an unparseable string raises ValueError; `0` maps
to "none"; otherwise the guarded body runs inside
`try: ... except ValueError: raise ConfigValidationError(...)`. -/
def parse_gpu_num (num_gpu : String) : Except PyExc String :=
  match pyIntOfString num_gpu with
  | none => Except.error PyExc.valueError
  | some n =>
    if n = 0 then Except.ok "none"
    else
      match gpuGuardedBody n with
      | Except.error PyExc.valueError =>
          Except.error (PyExc.configValidationError "Invalid value for gpu-number-default.")
      | r => r

/-- `JupyterUI._get_from_config` for the "gpu-number-default" key: it calls
`parse_gpu_num` on the raw config value with no exception handling of its
own, despite the docstring saying invalid input should not raise. -/
def getFromConfigGpuNumber (v : String) : Except PyExc String :=
  parse_gpu_num v

/-- A Python value appearing in an options list: a dictionary (an ordered
association list of string keys and values) or any non-dictionary value. -/
inductive PyObj where
  | dict (entries : List (String × String))
  | nonDict
deriving DecidableEq, Repr

/-- Dictionary lookup (`key in option` / `option[key]`). -/
def pyLookup (entries : List (String × String)) (k : String) : Option String :=
  match entries with
  | [] => none
  | (k2, v) :: rest => if k2 = k then some v else pyLookup rest k

/-- The first loop of `validate_options_with_default`: for each option, in
order, raise ConfigValidationError if it is not a dictionary, then raise for
the first required key it does not contain. -/
def requiredKeysCheck : List PyObj → List String → Option PyExc
  | [], _ => none
  | PyObj.nonDict :: _, _ =>
      some (PyExc.configValidationError "Configuration option is not a dictionary.")
  | PyObj.dict es :: rest, req =>
    match req.find? (fun k => (pyLookup es k).isNone) with
    | some _ => some (PyExc.configValidationError "Configuration option missing required key.")
    | none => requiredKeysCheck rest req

/-- `any(default == option[option_index_key] for option in options)`:
evaluated lazily, raising KeyError at the first option that lacks the index
key (indexing a non-dictionary would also raise, but that is unreachable
after the first loop). -/
def pyAnyEqIndexKey (d idx : String) : List PyObj → Except PyExc Bool
  | [] => Except.ok false
  | PyObj.nonDict :: _ => Except.error PyExc.keyError
  | PyObj.dict es :: rest =>
    match pyLookup es idx with
    | none => Except.error PyExc.keyError
    | some v => if d = v then Except.ok true else pyAnyEqIndexKey d idx rest

/-- `validate_options_with_default(default, options, option_index_key,
required_keys)`: runs the per-option required-keys loop, then — only when
`default` is truthy (not None and not the empty string, Python
short-circuit `if default and not any(...)`) — checks that the default
matches some option's index-key value, raising ConfigValidationError when it
does not; returns True otherwise. -/
def validate_options_with_default (default : Option String) (options : List PyObj)
    (option_index_key : String) (required_keys : List String) : Except PyExc Bool :=
  match requiredKeysCheck options required_keys with
  | some e => Except.error e
  | none =>
    match default with
    | none => Except.ok true
    | some d =>
      if d = "" then Except.ok true
      else
        match pyAnyEqIndexKey d option_index_key options with
        | Except.error e => Except.error e
        | Except.ok true => Except.ok true
        | Except.ok false =>
            Except.error (PyExc.configValidationError
              "Default selection not found in the list of options.")

/-!
Helper lemmas.
-/

/-- The lazily-cached handler property returns the same constructed handler
on every pass. -/
theorem handlerAcrossPasses_eq (mk : KubernetesResourceHandler) (n : Nat) :
    handlerAcrossPasses mk n = (mk, some mk) := by
  induction n with
  | zero => rfl
  | succ n ih => simp [handlerAcrossPasses, ih, handlerGet]

/-- When every option is a dictionary containing every required key, the
first loop of `validate_options_with_default` raises nothing. -/
theorem requiredKeysCheck_eq_none (options : List PyObj) (req : List String)
    (H : ∀ o ∈ options, ∃ es, o = PyObj.dict es ∧
          ∀ k ∈ req, (pyLookup es k).isSome = true) :
    requiredKeysCheck options req = none := by
  induction options with
  | nil => rfl
  | cons o rest ih =>
    obtain ⟨es, rfl, hk⟩ := H o (List.mem_cons_self _ _)
    have hf : req.find? (fun k => (pyLookup es k).isNone) = none := by
      rw [List.find?_eq_none]
      intro k hkmem
      have hs := hk k hkmem
      cases hpl : pyLookup es k with
      | none => rw [hpl] at hs; simp at hs
      | some v => simp [hpl]
    simp only [requiredKeysCheck, hf]
    exact ih (fun o ho => H o (List.mem_cons_of_mem _ ho))

/-!
Claims.
-/

/-- C8: every resource handler a charm instance creates (the controller's
plain-K8S and CRD handlers, and the jupyter-ui handler) is constructed with
the same field-manager identity "lightkube", and the handler returned by the
cached property is identical on every reconciliation pass. -/
theorem c8_single_field_manager :
    (∀ n : Nat, (handlerAcrossPasses mkCtrlK8sHandler n).1.field_manager
        = lightkubeFieldManager)
    ∧ (∀ n : Nat, (handlerAcrossPasses mkCtrlCrdHandler n).1.field_manager
        = lightkubeFieldManager)
    ∧ (∀ n : Nat, (handlerAcrossPasses mkUiK8sHandler n).1.field_manager
        = lightkubeFieldManager)
    ∧ (∀ n m : Nat, (handlerAcrossPasses mkCtrlK8sHandler n).1.field_manager
        = (handlerAcrossPasses mkCtrlCrdHandler m).1.field_manager)
    ∧ (∀ n m : Nat, (handlerAcrossPasses mkCtrlK8sHandler n).1
        = (handlerAcrossPasses mkCtrlK8sHandler m).1) := by
  refine ⟨?_, ?_, ?_, ?_, ?_⟩ <;> intro n <;>
    simp [handlerAcrossPasses_eq, mkCtrlK8sHandler, mkCtrlCrdHandler, mkUiK8sHandler]

/-- C9: an input string that Python cannot parse as an integer makes
`parse_gpu_num` raise the built-in ValueError from the initial `int()`
conversion (not ConfigValidationError), because the conversion precedes the
guarded try block; the guarded body never raises ValueError, so the
`except ValueError` branch is unreachable; and
`_get_from_config("gpu-number-default")` therefore raises on such input. -/
theorem c9_gpu_value_error (s : String) (h : pyIntOfString s = none) :
    parse_gpu_num s = Except.error PyExc.valueError
    ∧ getFromConfigGpuNumber s = Except.error PyExc.valueError
    ∧ ∀ n : Int, gpuGuardedBody n ≠ Except.error PyExc.valueError := by
  refine ⟨by simp [parse_gpu_num, h], by simp [getFromConfigGpuNumber, parse_gpu_num, h], ?_⟩
  intro n
  by_cases hn : n ∈ VALID_GPU_NUMS <;> simp [gpuGuardedBody, hn]

/-- Witness for C9 at the concrete unparseable input "abc". -/
theorem c9_gpu_value_error_witness :
    pyIntOfString "abc" = none
    ∧ parse_gpu_num "abc" = Except.error PyExc.valueError := by
  have h : pyIntOfString "abc" = none := by decide
  exact ⟨h, (c9_gpu_value_error "abc" h).1⟩

/-- C10: for an options list whose elements are all dictionaries containing
every required key, `validate_options_with_default` with a None or
empty-string default returns True regardless of the options' index-key
values: the default-membership check is skipped for any falsy default. -/
theorem c10_falsy_default_accepted (options : List PyObj) (option_index_key : String)
    (required_keys : List String)
    (H : ∀ o ∈ options, ∃ es, o = PyObj.dict es ∧
          ∀ k ∈ required_keys, (pyLookup es k).isSome = true) :
    validate_options_with_default none options option_index_key required_keys
      = Except.ok true
    ∧ validate_options_with_default (some "") options option_index_key required_keys
      = Except.ok true := by
  have h := requiredKeysCheck_eq_none options required_keys H
  constructor <;> simp [validate_options_with_default, h]

/-- Witness for C10: a nonempty well-formed gpu-vendors style options list
with an empty-string default is accepted. -/
theorem c10_falsy_default_accepted_witness :
    (∀ o ∈ [PyObj.dict [("limitsKey", "nvidia"), ("uiName", "NVIDIA")]],
      ∃ es, o = PyObj.dict es ∧
        ∀ k ∈ ["limitsKey", "uiName"], (pyLookup es k).isSome = true)
    ∧ validate_options_with_default (some "")
        [PyObj.dict [("limitsKey", "nvidia"), ("uiName", "NVIDIA")]]
        "limitsKey" ["limitsKey", "uiName"] = Except.ok true := by
  have H : ∀ o ∈ [PyObj.dict [("limitsKey", "nvidia"), ("uiName", "NVIDIA")]],
      ∃ es, o = PyObj.dict es ∧
        ∀ k ∈ ["limitsKey", "uiName"], (pyLookup es k).isSome = true := by
    intro o ho
    simp only [List.mem_singleton] at ho
    subst ho
    exact ⟨_, rfl, by decide⟩
  exact ⟨H, (c10_falsy_default_accepted _ _ _ H).2⟩

/-- C1 (amended): in `JupyterController._on_event`, exceptions carrying an
ErrorWithStatus are caught at the handler boundary and translated into the
corresponding visible state — any exception that escapes the handler is a
GenericCharmRuntimeError or an ApiError, never an ErrorWithStatus; and a 409
apply conflict on a non-upgrade pass is wrapped in GenericCharmRuntimeError
and escapes the handler (it does not leave the unit Blocked). -/
theorem c1_reconciler_boundary_amended (env : CtrlEnv) (force : Bool) (s : PassState)
    (e : CtrlExc) :
    ((onEvent env force s).2 = some e →
      (∃ m, e = CtrlExc.genericCharmRuntimeError m) ∨ (∃ code, e = CtrlExc.apiError code))
    ∧ (env.canConnect = true → env.isLeader = true → env.k8sApply = some 409 →
      (onEvent env false s).2 =
        some (CtrlExc.genericCharmRuntimeError "K8S resources creation failed")) := by
  constructor
  · intro h
    rcases hb : onEventBody env force s with ⟨s1, oe⟩
    rcases oe with _ | exc
    · simp [onEvent, hb] at h
    · cases exc with
      | errorWithStatus st => simp [onEvent, hb] at h
      | genericCharmRuntimeError m =>
        simp [onEvent, hb] at h
        exact Or.inl ⟨m, by simp [h]⟩
      | apiError c =>
        simp [onEvent, hb] at h
        exact Or.inr ⟨c, by simp [h]⟩
  · intro hc hl hk
    simp [onEvent, onEventBody, checkContainerConnection, checkLeader, applyK8sResources,
      tryApplyGroup, updateLayerStep, andThen, hc, hl, hk]

/-- C1 counterexample: on a non-upgrade pass with a 409 conflict on the
plain-K8S apply, the handler raises GenericCharmRuntimeError out of the
event handler and the unit is left in Maintenance("Creating K8S resources"),
not Blocked. -/
theorem c1_reconciler_boundary_counterexample :
    onEvent
      { isLeader := true, canConnect := true, k8sApply := some 409,
        k8sApplyForced := none, crdApply := none, crdApplyForced := none,
        updateLayerResult := none, checkGetError := false, checkUp := true,
        k8sDelete := none, crdDelete := none } false
      { status := Status.waiting "not yet reconciled", trace := [] } =
    ({ status := Status.maintenance "Creating K8S resources",
       trace := [CtrlOp.applyK8s false] },
     some (CtrlExc.genericCharmRuntimeError "K8S resources creation failed")) := by
  rfl

/-- Witness for C1 at a concrete 409-on-config-changed environment. -/
theorem c1_reconciler_boundary_witness :
    ((∃ m, CtrlExc.genericCharmRuntimeError "K8S resources creation failed"
        = CtrlExc.genericCharmRuntimeError m)
      ∨ (∃ code, CtrlExc.genericCharmRuntimeError "K8S resources creation failed"
        = CtrlExc.apiError code))
    ∧ (onEvent
        { isLeader := true, canConnect := true, k8sApply := some 409,
          k8sApplyForced := none, crdApply := none, crdApplyForced := none,
          updateLayerResult := none, checkGetError := false, checkUp := true,
          k8sDelete := none, crdDelete := none } false
        { status := Status.waiting "not yet reconciled", trace := [] }).2 =
      some (CtrlExc.genericCharmRuntimeError "K8S resources creation failed") :=
  ⟨(c1_reconciler_boundary_amended
      { isLeader := true, canConnect := true, k8sApply := some 409,
        k8sApplyForced := none, crdApply := none, crdApplyForced := none,
        updateLayerResult := none, checkGetError := false, checkUp := true,
        k8sDelete := none, crdDelete := none } false
      { status := Status.waiting "not yet reconciled", trace := [] }
      (CtrlExc.genericCharmRuntimeError "K8S resources creation failed")).1 rfl,
   (c1_reconciler_boundary_amended
      { isLeader := true, canConnect := true, k8sApply := some 409,
        k8sApplyForced := none, crdApply := none, crdApplyForced := none,
        updateLayerResult := none, checkGetError := false, checkUp := true,
        k8sDelete := none, crdDelete := none } false
      { status := Status.waiting "not yet reconciled", trace := [] }
      (CtrlExc.genericCharmRuntimeError "K8S resources creation failed")).2 rfl rfl rfl⟩

/-- C2 (amended): in jupyter-controller's `_on_event` the container gate
precedes any cluster mutation — an unreachable container stops the pass with
Maintenance("Pod startup is not complete") and an unchanged mutation trace;
in jupyter-ui's `main` the leadership gate precedes the apply but the apply
precedes the container check, so with an unreachable container the apply is
still performed and the pass ends Active, not Maintenance. -/
theorem c2_gate_order_amended (cenv : CtrlEnv) (force : Bool) (s : PassState)
    (uenv : UiEnv) (u : UiState)
    (hcc : cenv.canConnect = false) (hul : uenv.isLeader = true)
    (huc : uenv.canConnect = false) (huk : uenv.k8sApply = none) :
    onEvent cenv force s =
      ({ s with status := Status.maintenance "Pod startup is not complete" }, none)
    ∧ uiMain uenv u =
      ({ status := Status.active, trace := u.trace ++ [UiOp.applyK8s] }, none) := by
  constructor
  · simp [onEvent, onEventBody, checkContainerConnection, andThen, hcc]
  · simp [uiMain, uiMainBody, uiCheckLeader, uiDeployK8sResources, uiAndThen, hul, huc, huk]

/-- C2 counterexample: a jupyter-ui pass as leader with an unreachable
container still performs the Kubernetes apply and ends Active, contradicting
"stops with Maintenance and no apply is performed". -/
theorem c2_gate_order_counterexample :
    uiMain
      { isLeader := true, canConnect := false, k8sApply := none, planChanged := false,
        replanError := false, spawnerError := false, sidecarRelated := false,
        ambientRelated := false, iface := IfaceResult.ok, k8sDelete := none }
      { status := Status.waiting "not yet reconciled", trace := [] } =
    ({ status := Status.active, trace := [UiOp.applyK8s] }, none) := by
  rfl

/-- Witness for C2 at concrete environments for both charms. -/
theorem c2_gate_order_witness :
    onEvent
      { isLeader := true, canConnect := false, k8sApply := none, k8sApplyForced := none,
        crdApply := none, crdApplyForced := none, updateLayerResult := none,
        checkGetError := false, checkUp := true, k8sDelete := none, crdDelete := none } false
      { status := Status.waiting "not yet reconciled", trace := [] } =
      ({ status := Status.maintenance "Pod startup is not complete", trace := [] }, none)
    ∧ uiMain
      { isLeader := true, canConnect := false, k8sApply := none, planChanged := false,
        replanError := false, spawnerError := false, sidecarRelated := false,
        ambientRelated := false, iface := IfaceResult.ok, k8sDelete := none }
      { status := Status.waiting "not yet reconciled", trace := [] } =
      ({ status := Status.active, trace := [UiOp.applyK8s] }, none) :=
  c2_gate_order_amended
    { isLeader := true, canConnect := false, k8sApply := none, k8sApplyForced := none,
      crdApply := none, crdApplyForced := none, updateLayerResult := none,
      checkGetError := false, checkUp := true, k8sDelete := none, crdDelete := none } false
    { status := Status.waiting "not yet reconciled", trace := [] }
    { isLeader := true, canConnect := false, k8sApply := none, planChanged := false,
      replanError := false, spawnerError := false, sidecarRelated := false,
      ambientRelated := false, iface := IfaceResult.ok, k8sDelete := none }
    { status := Status.waiting "not yet reconciled", trace := [] }
    rfl rfl rfl rfl

/-- C3: on an upgrade pass (force_conflicts=True), a 409 conflict on the
plain-K8S apply always triggers a forced re-apply (the forced call appears
in the trace), the conflict is never surfaced as the Blocked-path
GenericCharmRuntimeError for either group, and when the forced re-applies
and the layer update succeed the pass proceeds to Active. -/
theorem c3_upgrade_forces_conflicts (env : CtrlEnv) (s : PassState)
    (hc : env.canConnect = true) (hl : env.isLeader = true)
    (hk : env.k8sApply = some 409) (hcrd : env.crdApply = some 409) :
    CtrlOp.applyK8s true ∈ (onUpgrade env s).1.trace
    ∧ (onUpgrade env s).2 ≠
        some (CtrlExc.genericCharmRuntimeError "K8S resources creation failed")
    ∧ (onUpgrade env s).2 ≠
        some (CtrlExc.genericCharmRuntimeError "CRD resources creation failed")
    ∧ (env.k8sApplyForced = none → env.crdApplyForced = none →
        env.updateLayerResult = none →
        onUpgrade env s =
          ({ status := Status.active,
             trace := s.trace ++ [CtrlOp.applyK8s false, CtrlOp.applyK8s true,
                                  CtrlOp.applyCrd false, CtrlOp.applyCrd true] }, none)) := by
  rcases hkf : env.k8sApplyForced with _ | ck <;>
    rcases hcf : env.crdApplyForced with _ | cc <;>
      rcases hul : env.updateLayerResult with _ | st <;>
        refine ⟨?_, ?_, ?_, ?_⟩ <;>
          simp [onUpgrade, onEvent, onEventBody, andThen, checkContainerConnection,
            checkLeader, applyK8sResources, tryApplyGroup, updateLayerStep,
            hc, hl, hk, hcrd, hkf, hcf, hul]

/-- Witness for C3 at a concrete upgrade pass with 409 conflicts on both
resource groups and successful forced re-applies. -/
theorem c3_upgrade_forces_conflicts_witness :
    onUpgrade
      { isLeader := true, canConnect := true, k8sApply := some 409,
        k8sApplyForced := none, crdApply := some 409, crdApplyForced := none,
        updateLayerResult := none, checkGetError := false, checkUp := true,
        k8sDelete := none, crdDelete := none }
      { status := Status.waiting "not yet reconciled", trace := [] } =
      ({ status := Status.active,
         trace := [CtrlOp.applyK8s false, CtrlOp.applyK8s true,
                   CtrlOp.applyCrd false, CtrlOp.applyCrd true] }, none)
    ∧ CtrlOp.applyK8s true ∈
      (onUpgrade
        { isLeader := true, canConnect := true, k8sApply := some 409,
          k8sApplyForced := none, crdApply := some 409, crdApplyForced := none,
          updateLayerResult := none, checkGetError := false, checkUp := true,
          k8sDelete := none, crdDelete := none }
        { status := Status.waiting "not yet reconciled", trace := [] }).1.trace :=
  ⟨(c3_upgrade_forces_conflicts
      { isLeader := true, canConnect := true, k8sApply := some 409,
        k8sApplyForced := none, crdApply := some 409, crdApplyForced := none,
        updateLayerResult := none, checkGetError := false, checkUp := true,
        k8sDelete := none, crdDelete := none }
      { status := Status.waiting "not yet reconciled", trace := [] }
      rfl rfl rfl rfl).2.2.2 rfl rfl rfl,
   (c3_upgrade_forces_conflicts
      { isLeader := true, canConnect := true, k8sApply := some 409,
        k8sApplyForced := none, crdApply := some 409, crdApplyForced := none,
        updateLayerResult := none, checkGetError := false, checkUp := true,
        k8sDelete := none, crdDelete := none }
      { status := Status.waiting "not yet reconciled", trace := [] }
      rfl rfl rfl rfl).1⟩

/-- C4 (amended): jupyter-controller's removal pass treats per-object 404 as
success, always attempts the deletion of both resource groups, and re-raises
the residual non-404 error only after both deletions were attempted;
jupyter-ui's removal pass instead re-raises ANY ApiError, including a 404,
so deleting documents none of which exist fails there. -/
theorem c4_delete_best_effort_amended (env : CtrlEnv) (s : PassState)
    (uenv : UiEnv) (u : UiState) (c : Nat) :
    (onRemove env s).1.trace = s.trace ++ [CtrlOp.deleteK8s, CtrlOp.deleteCrd]
    ∧ ((env.k8sDelete = none ∨ env.k8sDelete = some 404) →
       (env.crdDelete = none ∨ env.crdDelete = some 404) →
       (onRemove env s).2 = none
         ∧ (onRemove env s).1.status = Status.maintenance "K8S resources removed")
    ∧ (env.k8sDelete = some c → c ≠ 404 → env.crdDelete = none →
        (onRemove env s).2 = some (CtrlExc.apiError c))
    ∧ (uenv.k8sDelete = some 404 →
        uiOnRemove uenv u =
          ({ status := Status.maintenance "Removing K8S resources",
             trace := u.trace ++ [UiOp.deleteK8s] }, some (UiExc.apiError 404))) := by
  refine ⟨?_, ?_, ?_, ?_⟩
  · rcases hkd : env.k8sDelete with _ | ck <;> rcases hcd : env.crdDelete with _ | cc <;>
      simp [onRemove, deleteGroupError, hkd, hcd] <;> split <;> simp
  · rintro (hk | hk) (hc | hc) <;> simp [onRemove, deleteGroupError, hk, hc]
  · intro hk hc404 hcd
    simp [onRemove, deleteGroupError, hk, hcd, hc404]
  · intro hd
    simp [uiOnRemove, hd]

/-- C4 counterexample: a jupyter-ui removal pass in which the single
`delete_many` call reports 404 (no document exists) raises the ApiError out
of the handler instead of succeeding. -/
theorem c4_delete_best_effort_counterexample :
    uiOnRemove
      { isLeader := true, canConnect := true, k8sApply := none, planChanged := false,
        replanError := false, spawnerError := false, sidecarRelated := false,
        ambientRelated := false, iface := IfaceResult.ok, k8sDelete := some 404 }
      { status := Status.waiting "not yet reconciled", trace := [] } =
    ({ status := Status.maintenance "Removing K8S resources", trace := [UiOp.deleteK8s] },
     some (UiExc.apiError 404)) := by
  rfl

/-- Witness for C4: a controller removal where both groups report 404
succeeds, and a jupyter-ui removal with a 404 raises. -/
theorem c4_delete_best_effort_witness :
    ((onRemove
        { isLeader := true, canConnect := true, k8sApply := none, k8sApplyForced := none,
          crdApply := none, crdApplyForced := none, updateLayerResult := none,
          checkGetError := false, checkUp := true,
          k8sDelete := some 404, crdDelete := some 404 }
        { status := Status.waiting "not yet reconciled", trace := [] }).2 = none
      ∧ (onRemove
        { isLeader := true, canConnect := true, k8sApply := none, k8sApplyForced := none,
          crdApply := none, crdApplyForced := none, updateLayerResult := none,
          checkGetError := false, checkUp := true,
          k8sDelete := some 404, crdDelete := some 404 }
        { status := Status.waiting "not yet reconciled", trace := [] }).1.status =
          Status.maintenance "K8S resources removed")
    ∧ uiOnRemove
        { isLeader := true, canConnect := true, k8sApply := none, planChanged := false,
          replanError := false, spawnerError := false, sidecarRelated := false,
          ambientRelated := false, iface := IfaceResult.ok, k8sDelete := some 404 }
        { status := Status.waiting "not yet reconciled", trace := [] } =
      ({ status := Status.maintenance "Removing K8S resources", trace := [UiOp.deleteK8s] },
       some (UiExc.apiError 404)) :=
  ⟨(c4_delete_best_effort_amended
      { isLeader := true, canConnect := true, k8sApply := none, k8sApplyForced := none,
        crdApply := none, crdApplyForced := none, updateLayerResult := none,
        checkGetError := false, checkUp := true,
        k8sDelete := some 404, crdDelete := some 404 }
      { status := Status.waiting "not yet reconciled", trace := [] }
      { isLeader := true, canConnect := true, k8sApply := none, planChanged := false,
        replanError := false, spawnerError := false, sidecarRelated := false,
        ambientRelated := false, iface := IfaceResult.ok, k8sDelete := some 404 }
      { status := Status.waiting "not yet reconciled", trace := [] }
      500).2.1 (Or.inr rfl) (Or.inr rfl),
   (c4_delete_best_effort_amended
      { isLeader := true, canConnect := true, k8sApply := none, k8sApplyForced := none,
        crdApply := none, crdApplyForced := none, updateLayerResult := none,
        checkGetError := false, checkUp := true,
        k8sDelete := some 404, crdDelete := some 404 }
      { status := Status.waiting "not yet reconciled", trace := [] }
      { isLeader := true, canConnect := true, k8sApply := none, planChanged := false,
        replanError := false, spawnerError := false, sidecarRelated := false,
        ambientRelated := false, iface := IfaceResult.ok, k8sDelete := some 404 }
      { status := Status.waiting "not yet reconciled", trace := [] }
      500).2.2.2 rfl⟩

/-- C5 (amended): for the passes routed through `JupyterController._on_event`
and `JupyterUI.main`, a non-leader makes no apply or delete call and the
pass ends Waiting("Waiting for leadership") — in the controller provided the
container check, which runs first, passes (otherwise the pass ends
Maintenance, still with no mutation); the install handlers, however, perform
the Kubernetes apply with no leadership gate at all. -/
theorem c5_leadership_gate_amended (env : CtrlEnv) (force : Bool) (s : PassState)
    (uenv : UiEnv) (u : UiState) :
    (env.isLeader = false → env.canConnect = true →
      onEvent env force s =
        ({ s with status := Status.waiting "Waiting for leadership" }, none))
    ∧ (env.isLeader = false → env.canConnect = false →
      onEvent env force s =
        ({ s with status := Status.maintenance "Pod startup is not complete" }, none))
    ∧ (uenv.isLeader = false →
      uiMain uenv u = ({ u with status := Status.waiting "Waiting for leadership" }, none))
    ∧ CtrlOp.applyK8s false ∈ (onInstall env s).1.trace := by
  refine ⟨?_, ?_, ?_, ?_⟩
  · intro hl hc
    simp [onEvent, onEventBody, checkContainerConnection, checkLeader, andThen, hl, hc]
  · intro _ hc
    simp [onEvent, onEventBody, checkContainerConnection, andThen, hc]
  · intro hl
    simp [uiMain, uiMainBody, uiCheckLeader, uiAndThen, hl]
  · rcases hk : env.k8sApply with _ | ck <;>
      rcases hcr : env.crdApply with _ | cc <;>
        simp [onInstall, applyK8sResources, tryApplyGroup, andThen, hk, hcr]

/-- C5 counterexample: an install pass on a non-leader unit performs both
Kubernetes applies and ends in Maintenance, not Waiting. -/
theorem c5_leadership_gate_counterexample :
    onInstall
      { isLeader := false, canConnect := true, k8sApply := none, k8sApplyForced := none,
        crdApply := none, crdApplyForced := none, updateLayerResult := none,
        checkGetError := false, checkUp := true, k8sDelete := none, crdDelete := none }
      { status := Status.waiting "not yet reconciled", trace := [] } =
    ({ status := Status.maintenance "K8S resources created",
       trace := [CtrlOp.applyK8s false, CtrlOp.applyCrd false] }, none) := by
  rfl

/-- Witness for C5 at concrete non-leader environments. -/
theorem c5_leadership_gate_witness :
    onEvent
      { isLeader := false, canConnect := true, k8sApply := none, k8sApplyForced := none,
        crdApply := none, crdApplyForced := none, updateLayerResult := none,
        checkGetError := false, checkUp := true, k8sDelete := none, crdDelete := none } false
      { status := Status.waiting "not yet reconciled", trace := [] } =
      ({ status := Status.waiting "Waiting for leadership", trace := [] }, none)
    ∧ uiMain
      { isLeader := false, canConnect := true, k8sApply := none, planChanged := false,
        replanError := false, spawnerError := false, sidecarRelated := false,
        ambientRelated := false, iface := IfaceResult.ok, k8sDelete := none }
      { status := Status.waiting "not yet reconciled", trace := [] } =
      ({ status := Status.waiting "Waiting for leadership", trace := [] }, none) :=
  ⟨(c5_leadership_gate_amended
      { isLeader := false, canConnect := true, k8sApply := none, k8sApplyForced := none,
        crdApply := none, crdApplyForced := none, updateLayerResult := none,
        checkGetError := false, checkUp := true, k8sDelete := none, crdDelete := none } false
      { status := Status.waiting "not yet reconciled", trace := [] }
      { isLeader := false, canConnect := true, k8sApply := none, planChanged := false,
        replanError := false, spawnerError := false, sidecarRelated := false,
        ambientRelated := false, iface := IfaceResult.ok, k8sDelete := none }
      { status := Status.waiting "not yet reconciled", trace := [] }).1 rfl rfl,
   (c5_leadership_gate_amended
      { isLeader := false, canConnect := true, k8sApply := none, k8sApplyForced := none,
        crdApply := none, crdApplyForced := none, updateLayerResult := none,
        checkGetError := false, checkUp := true, k8sDelete := none, crdDelete := none } false
      { status := Status.waiting "not yet reconciled", trace := [] }
      { isLeader := false, canConnect := true, k8sApply := none, planChanged := false,
        replanError := false, spawnerError := false, sidecarRelated := false,
        ambientRelated := false, iface := IfaceResult.ok, k8sDelete := none }
      { status := Status.waiting "not yet reconciled", trace := [] }).2.2.1 rfl⟩

/-- C6 (amended): when both the sidecar-ingress ("ingress") and the
ambient-ingress ("istio-ingress-route") relations are present — regardless
of the order in which they were established, since only their presence is
consulted — a jupyter-ui pass ends Blocked, provided the unit is leader, the
resource apply succeeds, the container is reachable and the earlier layer
and spawner-config steps do not raise; a pass with an unreachable container
skips the relation check and ends Active instead. -/
theorem c6_mutual_exclusion_amended (env : UiEnv) (s : UiState)
    (hl : env.isLeader = true) (hk : env.k8sApply = none) (hc : env.canConnect = true)
    (hr : env.planChanged = false ∨ env.replanError = false)
    (hs : env.spawnerError = false)
    (hsr : env.sidecarRelated = true) (har : env.ambientRelated = true) :
    (uiMain env s).1.status = Status.blocked uiIstioBlockedMsg
    ∧ (uiMain env s).2 = none := by
  rcases hr with h | h
  · simp [uiMain, uiMainBody, uiCheckLeader, uiDeployK8sResources, uiUpdateLayer,
      uiUpdateSpawnerConfig, uiCheckIstioRelations, uiAndThen, hl, hk, hc, h, hs, hsr, har]
  · cases hp : env.planChanged <;>
      simp [uiMain, uiMainBody, uiCheckLeader, uiDeployK8sResources, uiUpdateLayer,
        uiUpdateSpawnerConfig, uiCheckIstioRelations, uiAndThen, hl, hk, hc, h, hp, hs,
        hsr, har]

/-- C6 counterexample: with both relations present but the container not yet
reachable, the pass ends Active — the mutual-exclusion Blocked state is not
reached, contradicting "regardless of which event triggered the pass" /
unconditional Blocked. -/
theorem c6_mutual_exclusion_counterexample :
    uiMain
      { isLeader := true, canConnect := false, k8sApply := none, planChanged := false,
        replanError := false, spawnerError := false, sidecarRelated := true,
        ambientRelated := true, iface := IfaceResult.ok, k8sDelete := none }
      { status := Status.waiting "not yet reconciled", trace := [] } =
    ({ status := Status.active, trace := [UiOp.applyK8s] }, none) := by
  rfl

/-- Witness for C6 at a concrete pass with both relations present and every
earlier step succeeding. -/
theorem c6_mutual_exclusion_witness :
    (uiMain
      { isLeader := true, canConnect := true, k8sApply := none, planChanged := false,
        replanError := false, spawnerError := false, sidecarRelated := true,
        ambientRelated := true, iface := IfaceResult.ok, k8sDelete := none }
      { status := Status.waiting "not yet reconciled", trace := [] }).1.status =
      Status.blocked uiIstioBlockedMsg
    ∧ (uiMain
      { isLeader := true, canConnect := true, k8sApply := none, planChanged := false,
        replanError := false, spawnerError := false, sidecarRelated := true,
        ambientRelated := true, iface := IfaceResult.ok, k8sDelete := none }
      { status := Status.waiting "not yet reconciled", trace := [] }).2 = none :=
  c6_mutual_exclusion_amended
    { isLeader := true, canConnect := true, k8sApply := none, planChanged := false,
      replanError := false, spawnerError := false, sidecarRelated := true,
      ambientRelated := true, iface := IfaceResult.ok, k8sDelete := none }
    { status := Status.waiting "not yet reconciled", trace := [] }
    rfl rfl rfl (Or.inl rfl) rfl rfl rfl

/-- C7 (amended): on an update-status pass the controller re-runs the full
`_on_event` pass and then runs `_check_status` unconditionally (not only
when the pass reached Active): with leadership, a reachable container,
successful applies and a working `get_check`, a failing probe leaves the
unit in Maintenance("Workload failed health check") with no delete having
been performed, while a passing probe sets Active even when the pass itself
ended in a non-Active state such as Blocked. -/
theorem c7_update_status_amended (env : CtrlEnv) (s : PassState)
    (hl : env.isLeader = true) (hc : env.canConnect = true)
    (hk : env.k8sApply = none) (hcrd : env.crdApply = none)
    (hg : env.checkGetError = false) :
    (env.updateLayerResult = none → env.checkUp = false →
      onUpdateStatus env s =
        ({ status := Status.maintenance "Workload failed health check",
           trace := s.trace ++ [CtrlOp.applyK8s false, CtrlOp.applyCrd false] }, none))
    ∧ (env.checkUp = true →
      (onUpdateStatus env s).1.status = Status.active
        ∧ (onUpdateStatus env s).2 = none) := by
  constructor
  · intro hul hup
    simp [onUpdateStatus, onEvent, onEventBody, andThen, checkContainerConnection,
      checkLeader, applyK8sResources, tryApplyGroup, updateLayerStep, checkStatus,
      hl, hc, hk, hcrd, hg, hul, hup]
  · intro hup
    rcases hul : env.updateLayerResult with _ | st <;>
      simp [onUpdateStatus, onEvent, onEventBody, andThen, checkContainerConnection,
        checkLeader, applyK8sResources, tryApplyGroup, updateLayerStep, checkStatus,
        hl, hc, hk, hcrd, hg, hul, hup]

/-- C7 counterexample: the `_on_event` pass ends Blocked("Failed to replan"),
which is not Active, yet the probe check still runs and — the probe being up
— overwrites the final state with Active; under the claim the probe would
not have been checked and the state would have remained Blocked. -/
theorem c7_update_status_counterexample :
    onUpdateStatus
      { isLeader := true, canConnect := true, k8sApply := none, k8sApplyForced := none,
        crdApply := none, crdApplyForced := none,
        updateLayerResult := some (Status.blocked "Failed to replan"),
        checkGetError := false, checkUp := true, k8sDelete := none, crdDelete := none }
      { status := Status.waiting "not yet reconciled", trace := [] } =
    ({ status := Status.active, trace := [CtrlOp.applyK8s false, CtrlOp.applyCrd false] },
     none) := by
  rfl

/-- Witness for C7 at concrete environments: a failing probe after a clean
pass, and a passing probe after a pass that ended Blocked. -/
theorem c7_update_status_witness :
    onUpdateStatus
      { isLeader := true, canConnect := true, k8sApply := none, k8sApplyForced := none,
        crdApply := none, crdApplyForced := none, updateLayerResult := none,
        checkGetError := false, checkUp := false, k8sDelete := none, crdDelete := none }
      { status := Status.waiting "not yet reconciled", trace := [] } =
      ({ status := Status.maintenance "Workload failed health check",
         trace := [CtrlOp.applyK8s false, CtrlOp.applyCrd false] }, none)
    ∧ ((onUpdateStatus
        { isLeader := true, canConnect := true, k8sApply := none, k8sApplyForced := none,
          crdApply := none, crdApplyForced := none,
          updateLayerResult := some (Status.blocked "Failed to replan"),
          checkGetError := false, checkUp := true, k8sDelete := none, crdDelete := none }
        { status := Status.waiting "not yet reconciled", trace := [] }).1.status =
          Status.active
      ∧ (onUpdateStatus
        { isLeader := true, canConnect := true, k8sApply := none, k8sApplyForced := none,
          crdApply := none, crdApplyForced := none,
          updateLayerResult := some (Status.blocked "Failed to replan"),
          checkGetError := false, checkUp := true, k8sDelete := none, crdDelete := none }
        { status := Status.waiting "not yet reconciled", trace := [] }).2 = none) :=
  ⟨(c7_update_status_amended
      { isLeader := true, canConnect := true, k8sApply := none, k8sApplyForced := none,
        crdApply := none, crdApplyForced := none, updateLayerResult := none,
        checkGetError := false, checkUp := false, k8sDelete := none, crdDelete := none }
      { status := Status.waiting "not yet reconciled", trace := [] }
      rfl rfl rfl rfl rfl).1 rfl rfl,
   (c7_update_status_amended
      { isLeader := true, canConnect := true, k8sApply := none, k8sApplyForced := none,
        crdApply := none, crdApplyForced := none,
        updateLayerResult := some (Status.blocked "Failed to replan"),
        checkGetError := false, checkUp := true, k8sDelete := none, crdDelete := none }
      { status := Status.waiting "not yet reconciled", trace := [] }
      rfl rfl rfl rfl rfl).2 rfl⟩
